import Mathlib

/-!
Verification of the `intellectia/go-log` logging package.

The definitions below are a shallow embedding of the Go source.  The
repository contains the current revision of the package (the go.mod plus the
full `go-logger.go` with three output cores, `sync.Once` guarded `Init`, the
error-with-stack variants) together with two earlier revisions of the same
file; the embedding follows the current revision, whose symbols the claims
cite (three cores, `Logger.Error` taking an error, `Logger.Errorf` scanning
its arguments, `getEncoderConfig`).

External collaborators (the zap structured-logging library, the lumberjack
rotation writer, `fmt.Sprintf`, `runtime.Stack`) are modelled at their
interfaces: `fmt.Sprintf` is an abstract rendering function passed as a
parameter, `runtime.Stack` is the captured stack string passed as a
parameter, the zap tee core is a list of (encoder, sink, level-filter)
triples, and the buffered-sink flush contract of `zap.Logger.Sync` is a
state with a buffered and a durable record list.
-/

namespace GoLog

/-- zapcore severity levels (go.uber.org/zap/zapcore):
Debug = -1, Info = 0, Warn = 1, Error = 2, DPanic = 3, Panic = 4, Fatal = 5. -/
inductive Level where
  | debug
  | info
  | warn
  | error
  | dpanic
  | severe
  | fatal
deriving DecidableEq, Repr, Fintype

/-- The numeric value of a zapcore level (`zapcore.Level` is an int8). -/
def Level.toInt : Level → Int
  | .debug => -1
  | .info => 0
  | .warn => 1
  | .error => 2
  | .dpanic => 3
  | .severe => 4
  | .fatal => 5

/-- `type Config struct` of the current revision: informational log path,
error log path, and the mode string. -/
structure Config where
  InfoLogPath : String
  ErrorLogPath : String
  Mode : String
deriving DecidableEq, Repr

/-- A `lumberjack.Logger` rotation writer: the fields the source sets. -/
structure LumberjackLogger where
  Filename : String
  MaxSize : Nat
  MaxBackups : Nat
  MaxAge : Nat
deriving DecidableEq, Repr

/-- How a zapcore encoder configuration renders timestamps: zap production
default (epoch), zap development default (ISO 8601), or the source's
`beijingTimeEncoder` (RFC 3339 in Asia/Shanghai). -/
inductive TimeEncoder where
  | epoch
  | iso8601
  | beijing
deriving DecidableEq, Repr

/-- A zapcore encoder configuration, at the granularity the source
distinguishes: whether it is the production-style configuration and how it
encodes timestamps. -/
structure EncoderConfig where
  productionStyle : Bool
  EncodeTime : TimeEncoder
deriving DecidableEq, Repr

/-- `zap.NewProductionEncoderConfig()`. -/
def NewProductionEncoderConfig : EncoderConfig := ⟨true, .epoch⟩

/-- `zap.NewDevelopmentEncoderConfig()`. -/
def NewDevelopmentEncoderConfig : EncoderConfig := ⟨false, .iso8601⟩

/-- `getEncoderConfig`: the production encoder configuration when the mode
string is "prod", the development one otherwise. -/
def getEncoderConfig (config : Config) : EncoderConfig :=
  if config.Mode = "prod" then NewProductionEncoderConfig
  else NewDevelopmentEncoderConfig

/-- The encoder constructor a core uses: `zapcore.NewJSONEncoder` or
`zapcore.NewConsoleEncoder`. -/
inductive EncoderFormat where
  | json
  | console
deriving DecidableEq, Repr

/-- The write destination of a core: a rotated file writer or the locked
standard output. -/
inductive WriteSink where
  | file (w : LumberjackLogger)
  | stdoutSink
deriving DecidableEq, Repr

/-- A `zapcore.Core` as built by `zapcore.NewCore`: an encoder (format plus
configuration), a sink, and a level filter. -/
structure ZapCore where
  format : EncoderFormat
  encoderConfig : EncoderConfig
  dest : WriteSink
  enabled : Level → Bool

/-- The combined `zapcore.NewTee` core: the list of cores, in construction
order; a record is delivered to every core whose filter accepts its level. -/
structure ZapLogger where
  cores : List ZapCore

/-- `type Logger struct { zap *zap.Logger }`. -/
structure Logger where
  zap : ZapLogger

/-- `NewLogger` of the current revision: two rotated JSON file cores (the
informational one filtering debug-through-warn, the error one filtering
error-and-above), a console core at minimum level debug whose encoder
configuration comes from `getEncoderConfig`, all teed together. -/
def NewLogger (config : Config) : Logger :=
  let infoLogWriter : LumberjackLogger := ⟨config.InfoLogPath, 500, 3, 28⟩
  let errorLogWriter : LumberjackLogger := ⟨config.ErrorLogPath, 500, 3, 28⟩
  let encoderConfig : EncoderConfig := ⟨NewProductionEncoderConfig.productionStyle, .beijing⟩
  let infoCore : ZapCore :=
    ⟨.json, encoderConfig, .file infoLogWriter,
      fun lvl => Level.debug.toInt ≤ lvl.toInt && lvl.toInt ≤ Level.warn.toInt⟩
  let errorCore : ZapCore :=
    ⟨.json, encoderConfig, .file errorLogWriter,
      fun lvl => Level.error.toInt ≤ lvl.toInt⟩
  let consoleEncoderConfig := getEncoderConfig config
  let consoleCore : ZapCore :=
    ⟨.console, consoleEncoderConfig, .stdoutSink,
      fun lvl => Level.debug.toInt ≤ lvl.toInt⟩
  ⟨⟨[infoCore, errorCore, consoleCore]⟩⟩

/-- Whether the core at position `i` of the tee accepts level `lvl`
(false when there is no such core). -/
def ZapLogger.enabledAt (z : ZapLogger) (i : Nat) (lvl : Level) : Bool :=
  match z.cores.get? i with
  | some c => c.enabled lvl
  | none => false

/-- The positions of the cores a record at level `lvl` is delivered to. -/
def ZapLogger.deliveredIdx (z : ZapLogger) (lvl : Level) : List Nat :=
  (List.range z.cores.length).filter (fun i => z.enabledAt i lvl)

/-- The destination of the core at position `i`, when it exists. -/
def ZapLogger.destAt (z : ZapLogger) (i : Nat) : Option WriteSink :=
  (z.cores.get? i).map ZapCore.dest

/-- The encoder configuration of the core at position `i`, when it exists. -/
def ZapLogger.encCfgAt (z : ZapLogger) (i : Nat) : Option EncoderConfig :=
  (z.cores.get? i).map ZapCore.encoderConfig

/-- A `zap.String` structured field: a key and a string value.  Every field
the source itself builds is a `zap.String`; caller-supplied tags are
modelled at the same granularity. -/
structure Field where
  key : String
  value : String
deriving DecidableEq, Repr

/-- A Go `error` value as the source consumes it: its `Error()` message. -/
structure GoError where
  message : String
deriving DecidableEq, Repr

/-- A value in the `args ...interface\x7b\x7d` list of a formatted variant:
either an error value or some non-error value (kept abstract as the string
`fmt.Sprintf` would consume). -/
inductive GoValue where
  | errVal (e : GoError)
  | otherVal (s : String)
deriving DecidableEq, Repr

/-- The record a single logging call hands to the tee core: level, message,
and structured fields in order. -/
structure LogCall where
  level : Level
  msg : String
  fields : List Field
deriving DecidableEq, Repr

/-- `zapErrorWithStack`: the pair of fields built from an error and the
stack trace captured by `runtime.Stack` (the captured bytes are the `stack`
parameter; `runtime.Stack` always writes a non-empty trace). -/
def zapErrorWithStack (err : GoError) (stack : String) : Field × Field :=
  (⟨"error", err.message⟩, ⟨"stacktrace", stack⟩)

/-- `(l *Logger) Info`: log at info level with the caller's tags. -/
def Logger.Info (msg : String) (tags : List Field) : LogCall :=
  ⟨.info, msg, tags⟩

/-- `(l *Logger) Debug`. -/
def Logger.Debug (msg : String) (tags : List Field) : LogCall :=
  ⟨.debug, msg, tags⟩

/-- `(l *Logger) Warn`. -/
def Logger.Warn (msg : String) (tags : List Field) : LogCall :=
  ⟨.warn, msg, tags⟩

/-- `(l *Logger) Fatal`. -/
def Logger.Fatal (msg : String) (tags : List Field) : LogCall :=
  ⟨.fatal, msg, tags⟩

/-- `(l *Logger) Error` of the current revision:
`allFields := append(tags, zap.String("error", err.Error()), errMsg, errStack)`
where `(errMsg, errStack) = zapErrorWithStack(err)`; logs at error level with
those fields.  `stack` is the trace `runtime.Stack` captured inside
`zapErrorWithStack`. -/
def Logger.Error (msg : String) (err : GoError) (stack : String)
    (tags : List Field) : LogCall :=
  let p := zapErrorWithStack err stack
  let allFields := tags ++ [⟨"error", err.message⟩, p.1, p.2]
  ⟨.error, msg, allFields⟩

/-- `(l *Logger) Infof`: renders the message with `fmt.Sprintf` (the
abstract `sprintf` parameter) and logs it with no fields. -/
def Logger.Infof (sprintf : String → List GoValue → String)
    (format : String) (args : List GoValue) : LogCall :=
  ⟨.info, sprintf format args, []⟩

/-- `(l *Logger) Debugf`. -/
def Logger.Debugf (sprintf : String → List GoValue → String)
    (format : String) (args : List GoValue) : LogCall :=
  ⟨.debug, sprintf format args, []⟩

/-- `(l *Logger) Warnf`. -/
def Logger.Warnf (sprintf : String → List GoValue → String)
    (format : String) (args : List GoValue) : LogCall :=
  ⟨.warn, sprintf format args, []⟩

/-- `(l *Logger) Fatalf`. -/
def Logger.Fatalf (sprintf : String → List GoValue → String)
    (format : String) (args : List GoValue) : LogCall :=
  ⟨.fatal, sprintf format args, []⟩

/-- The `for _, arg := range args` scan of `Errorf`: the first argument that
is an error value, if any. -/
def firstError : List GoValue → Option GoError
  | [] => none
  | .errVal e :: _ => some e
  | .otherVal _ :: rest => firstError rest

/-- `(l *Logger) Errorf` of the current revision: renders the message with
`fmt.Sprintf`, scans the arguments for the first error; if one is found,
logs at error level with the two fields from `zapErrorWithStack`, otherwise
logs at error level with no fields. -/
def Logger.Errorf (sprintf : String → List GoValue → String)
    (format : String) (args : List GoValue) (stack : String) : LogCall :=
  let msg := sprintf format args
  match firstError args with
  | some stackErr =>
      let p := zapErrorWithStack stackErr stack
      ⟨.error, msg, [p.1, p.2]⟩
  | none => ⟨.error, msg, []⟩

/-- The package-level mutable state: the `logInstance` pointer (none models
the nil pointer) and the `sync.Once` completion flag. -/
structure PkgState where
  logInstance : Option Logger
  onceDone : Bool

/-- The state at process start: nil instance, `once` not yet fired. -/
def startState : PkgState := ⟨none, false⟩

/-- `Init`: `once.Do(func() { logInstance = NewLogger(config) })` — the body
runs only the first time. -/
def Init (config : Config) (s : PkgState) : PkgState :=
  if s.onceDone then s else ⟨some (NewLogger config), true⟩

/-- `GetInstance`: returns the `logInstance` pointer as is. -/
def GetInstance (s : PkgState) : Option Logger :=
  s.logInstance

/-- The outcome of a package-level call: the record handed to the instance's
writer, or the crash from dereferencing the nil `logInstance`. -/
inductive CallResult where
  | ok (r : LogCall)
  | nilDeref
deriving DecidableEq, Repr

/-- Package-level `Info`: `logInstance.Info(msg, tags...)` — dereferences
the nil instance when uninitialized. -/
def Info (s : PkgState) (msg : String) (tags : List Field) : CallResult :=
  match s.logInstance with
  | none => .nilDeref
  | some _ => .ok (Logger.Info msg tags)

/-- Package-level `Debug`. -/
def Debug (s : PkgState) (msg : String) (tags : List Field) : CallResult :=
  match s.logInstance with
  | none => .nilDeref
  | some _ => .ok (Logger.Debug msg tags)

/-- Package-level `Warn`. -/
def Warn (s : PkgState) (msg : String) (tags : List Field) : CallResult :=
  match s.logInstance with
  | none => .nilDeref
  | some _ => .ok (Logger.Warn msg tags)

/-- Package-level `Fatal`. -/
def Fatal (s : PkgState) (msg : String) (tags : List Field) : CallResult :=
  match s.logInstance with
  | none => .nilDeref
  | some _ => .ok (Logger.Fatal msg tags)

/-- Package-level `Error` of the current revision:
`logInstance.Error(msg, err, tags...)`. -/
def Error (s : PkgState) (msg : String) (err : GoError) (stack : String)
    (tags : List Field) : CallResult :=
  match s.logInstance with
  | none => .nilDeref
  | some _ => .ok (Logger.Error msg err stack tags)

/-- Package-level `Infof`: `logInstance.Info(fmt.Sprintf(msg, args...))`. -/
def Infof (s : PkgState) (sprintf : String → List GoValue → String)
    (format : String) (args : List GoValue) : CallResult :=
  match s.logInstance with
  | none => .nilDeref
  | some _ => .ok (Logger.Infof sprintf format args)

/-- Package-level `Errorf`: `logInstance.Errorf(format, args...)`. -/
def Errorf (s : PkgState) (sprintf : String → List GoValue → String)
    (format : String) (args : List GoValue) (stack : String) : CallResult :=
  match s.logInstance with
  | none => .nilDeref
  | some _ => .ok (Logger.Errorf sprintf format args stack)

/-- Package-level `Debugf`: `logInstance.Debug(fmt.Sprintf(msg, args...))`. -/
def Debugf (s : PkgState) (sprintf : String → List GoValue → String)
    (format : String) (args : List GoValue) : CallResult :=
  match s.logInstance with
  | none => .nilDeref
  | some _ => .ok (Logger.Debugf sprintf format args)

/-- Package-level `Warnf`: `logInstance.Warn(fmt.Sprintf(msg, args...))`. -/
def Warnf (s : PkgState) (sprintf : String → List GoValue → String)
    (format : String) (args : List GoValue) : CallResult :=
  match s.logInstance with
  | none => .nilDeref
  | some _ => .ok (Logger.Warnf sprintf format args)

/-- Package-level `Fatalf`: `logInstance.Fatal(fmt.Sprintf(msg, args...))`. -/
def Fatalf (s : PkgState) (sprintf : String → List GoValue → String)
    (format : String) (args : List GoValue) : CallResult :=
  match s.logInstance with
  | none => .nilDeref
  | some _ => .ok (Logger.Fatalf sprintf format args)

/-- The buffered-sink state the flush contract of `zap.Logger.Sync` is
stated over: records still buffered, and records durably in their
destination. -/
structure SinkState where
  buffered : List LogCall
  durable : List LogCall
deriving DecidableEq, Repr

/-- Issuing a log call appends its record to the buffer. -/
def SinkState.writeRecord (st : SinkState) (r : LogCall) : SinkState :=
  ⟨st.buffered ++ [r], st.durable⟩

/-- `zap.Logger.Sync` per its contract: flush every buffered record to its
destination. -/
def ZapLogger.syncAll (st : SinkState) : SinkState :=
  ⟨[], st.durable ++ st.buffered⟩

/-- `Cleanup`: `logInstance.zap.Sync()` — dereferences the nil instance when
uninitialized, otherwise flushes the sink. -/
def Cleanup (s : PkgState) (st : SinkState) : Option SinkState :=
  match s.logInstance with
  | none => none
  | some _ => some (ZapLogger.syncAll st)

/-! ## Theorems -/

/-- Evaluation of the delivery set at each severity level (the enablers do
not depend on the configuration). -/
theorem deliveredIdx_debug (config : Config) :
    (NewLogger config).zap.deliveredIdx .debug = [0, 2] := rfl

theorem deliveredIdx_info (config : Config) :
    (NewLogger config).zap.deliveredIdx .info = [0, 2] := rfl

theorem deliveredIdx_warn (config : Config) :
    (NewLogger config).zap.deliveredIdx .warn = [0, 2] := rfl

theorem deliveredIdx_error (config : Config) :
    (NewLogger config).zap.deliveredIdx .error = [1, 2] := rfl

theorem deliveredIdx_dpanic (config : Config) :
    (NewLogger config).zap.deliveredIdx .dpanic = [1, 2] := rfl

theorem deliveredIdx_severe (config : Config) :
    (NewLogger config).zap.deliveredIdx .severe = [1, 2] := rfl

theorem deliveredIdx_fatal (config : Config) :
    (NewLogger config).zap.deliveredIdx .fatal = [1, 2] := rfl

/-- C1: a record at level X is delivered to exactly the channels whose
filter range includes X — channel 0 (informational file) accepts
debug-through-warn, channel 1 (error file) accepts error and above,
channel 2 (console) accepts debug and above; in particular a warn record
reaches channels 0 and 2 but not 1, and an error record reaches channels 1
and 2 but not 0. -/
theorem record_routing_by_level (config : Config) :
    (NewLogger config).zap.cores.length = 3 ∧
    (NewLogger config).zap.destAt 0 =
      some (WriteSink.file ⟨config.InfoLogPath, 500, 3, 28⟩) ∧
    (NewLogger config).zap.destAt 1 =
      some (WriteSink.file ⟨config.ErrorLogPath, 500, 3, 28⟩) ∧
    (NewLogger config).zap.destAt 2 = some WriteSink.stdoutSink ∧
    (∀ lvl : Level, 0 ∈ (NewLogger config).zap.deliveredIdx lvl ↔
      (Level.debug.toInt ≤ lvl.toInt ∧ lvl.toInt ≤ Level.warn.toInt)) ∧
    (∀ lvl : Level, 1 ∈ (NewLogger config).zap.deliveredIdx lvl ↔
      Level.error.toInt ≤ lvl.toInt) ∧
    (∀ lvl : Level, 2 ∈ (NewLogger config).zap.deliveredIdx lvl ↔
      Level.debug.toInt ≤ lvl.toInt) ∧
    (NewLogger config).zap.deliveredIdx .warn = [0, 2] ∧
    (NewLogger config).zap.deliveredIdx .error = [1, 2] := by
  refine ⟨rfl, rfl, rfl, rfl, ?_, ?_, ?_, rfl, rfl⟩ <;>
    intro lvl <;> cases lvl <;>
    simp only [deliveredIdx_debug, deliveredIdx_info, deliveredIdx_warn,
      deliveredIdx_error, deliveredIdx_dpanic, deliveredIdx_severe,
      deliveredIdx_fatal] <;> decide

/-- C7: for every configuration, both file writers are built with the fixed
rotation constants — maximum size 500 MB, 3 retained backups, maximum age
28 days — and only the filenames come from the configuration. -/
theorem rotation_policy_fixed (config : Config) :
    (NewLogger config).zap.destAt 0 =
      some (WriteSink.file
        { Filename := config.InfoLogPath, MaxSize := 500,
          MaxBackups := 3, MaxAge := 28 }) ∧
    (NewLogger config).zap.destAt 1 =
      some (WriteSink.file
        { Filename := config.ErrorLogPath, MaxSize := 500,
          MaxBackups := 3, MaxAge := 28 }) :=
  ⟨rfl, rfl⟩

/-- C8: the console channel's encoder configuration is the production one
exactly when the mode string is "prod", the development one for every other
mode string; the two file channels' encoder configuration is a fixed
constant (production style with the Beijing time encoder), independent of
the mode. -/
theorem console_encoder_mode (config : Config) :
    ((NewLogger config).zap.encCfgAt 2 = some NewProductionEncoderConfig ↔
      config.Mode = "prod") ∧
    ((NewLogger config).zap.encCfgAt 2 = some NewDevelopmentEncoderConfig ↔
      ¬ config.Mode = "prod") ∧
    (NewLogger config).zap.encCfgAt 0 = some ⟨true, .beijing⟩ ∧
    (NewLogger config).zap.encCfgAt 1 = some ⟨true, .beijing⟩ := by
  by_cases h : config.Mode = "prod" <;>
    simp [NewLogger, ZapLogger.encCfgAt, getEncoderConfig, h,
      NewProductionEncoderConfig, NewDevelopmentEncoderConfig]

/-- C8 witness: with mode "prod" the console channel gets the production
encoder configuration. -/
theorem console_encoder_mode_witness :
    (NewLogger ⟨"a.log", "b.log", "prod"⟩).zap.encCfgAt 2 =
      some NewProductionEncoderConfig :=
  (console_encoder_mode ⟨"a.log", "b.log", "prod"⟩).1.mpr rfl

/-- C2: initializing twice constructs exactly one instance — the second
call leaves the state unchanged — and every later lookup and logging call
observes the instance built by the first call. -/
theorem init_twice_one_instance (c1 c2 : Config) :
    Init c2 (Init c1 startState) = Init c1 startState ∧
    GetInstance (Init c1 startState) = some (NewLogger c1) ∧
    GetInstance (Init c2 (Init c1 startState)) = some (NewLogger c1) ∧
    (∀ msg tags, Info (Init c2 (Init c1 startState)) msg tags =
      Info (Init c1 startState) msg tags) :=
  ⟨rfl, rfl, rfl, fun _ _ => rfl⟩

/-- C6: every package-level logging operation (Info, Debug, Warn, Fatal,
Error, Infof, Errorf, Debugf, Warnf, Fatalf) and the flush operation crash
on the nil instance when called before initialization, and after `Init`
the nil-dereference branch is unreachable for all of them. -/
theorem uninit_calls_crash :
    (∀ msg tags, Info startState msg tags = CallResult.nilDeref) ∧
    (∀ msg tags, Debug startState msg tags = CallResult.nilDeref) ∧
    (∀ msg tags, Warn startState msg tags = CallResult.nilDeref) ∧
    (∀ msg tags, Fatal startState msg tags = CallResult.nilDeref) ∧
    (∀ msg err stack tags,
      Error startState msg err stack tags = CallResult.nilDeref) ∧
    (∀ f format args, Infof startState f format args = CallResult.nilDeref) ∧
    (∀ f format args stack,
      Errorf startState f format args stack = CallResult.nilDeref) ∧
    (∀ f format args, Debugf startState f format args = CallResult.nilDeref) ∧
    (∀ f format args, Warnf startState f format args = CallResult.nilDeref) ∧
    (∀ f format args, Fatalf startState f format args = CallResult.nilDeref) ∧
    (∀ st, Cleanup startState st = none) ∧
    (∀ config msg tags,
      Info (Init config startState) msg tags ≠ CallResult.nilDeref) ∧
    (∀ config msg tags,
      Debug (Init config startState) msg tags ≠ CallResult.nilDeref) ∧
    (∀ config msg tags,
      Warn (Init config startState) msg tags ≠ CallResult.nilDeref) ∧
    (∀ config msg tags,
      Fatal (Init config startState) msg tags ≠ CallResult.nilDeref) ∧
    (∀ config msg err stack tags,
      Error (Init config startState) msg err stack tags ≠
        CallResult.nilDeref) ∧
    (∀ config f format args,
      Infof (Init config startState) f format args ≠ CallResult.nilDeref) ∧
    (∀ config f format args stack,
      Errorf (Init config startState) f format args stack ≠
        CallResult.nilDeref) ∧
    (∀ config f format args,
      Debugf (Init config startState) f format args ≠ CallResult.nilDeref) ∧
    (∀ config f format args,
      Warnf (Init config startState) f format args ≠ CallResult.nilDeref) ∧
    (∀ config f format args,
      Fatalf (Init config startState) f format args ≠ CallResult.nilDeref) ∧
    (∀ config st, Cleanup (Init config startState) st ≠ none) := by
  refine ⟨fun _ _ => rfl, fun _ _ => rfl, fun _ _ => rfl, fun _ _ => rfl,
    fun _ _ _ _ => rfl, fun _ _ _ => rfl, fun _ _ _ _ => rfl,
    fun _ _ _ => rfl, fun _ _ _ => rfl, fun _ _ _ => rfl, fun _ => rfl,
    ?_, ?_, ?_, ?_, ?_, ?_, ?_, ?_, ?_, ?_, ?_⟩ <;> intros <;>
    simp [Info, Debug, Warn, Fatal, Error, Infof, Errorf, Debugf, Warnf,
      Fatalf, Cleanup, Init, startState]

/-- C6 witness: before initialization the info call and the formatted
fatal call crash and the flush returns nothing; after a concrete
initialization none of them hit the nil branch. -/
theorem uninit_calls_crash_witness :
    Info startState "m" [] = CallResult.nilDeref ∧
    Fatalf startState (fun f _ => f) "m" [] = CallResult.nilDeref ∧
    Info (Init ⟨"a.log", "b.log", "dev"⟩ startState) "m" [] ≠
      CallResult.nilDeref ∧
    Fatalf (Init ⟨"a.log", "b.log", "dev"⟩ startState) (fun f _ => f)
      "m" [] ≠ CallResult.nilDeref := by
  obtain ⟨h1, _, _, _, _, _, _, _, _, h10, _, h12, _, _, _, _, _, _, _, _,
    h21, _⟩ := uninit_calls_crash
  exact ⟨h1 "m" [], h10 (fun f _ => f) "m" [],
    h12 ⟨"a.log", "b.log", "dev"⟩ "m" [],
    h21 ⟨"a.log", "b.log", "dev"⟩ (fun f _ => f) "m" []⟩

/-- C3: the plain error variant, given a non-nil error, emits a record
whose fields contain an error-message field equal to the error's message,
a non-empty stack-trace field, and every caller-supplied tag. -/
theorem error_attaches_message_and_stack (msg : String) (err : GoError)
    (stack : String) (tags : List Field) (hstack : stack ≠ "") :
    (⟨"error", err.message⟩ : Field) ∈ (Logger.Error msg err stack tags).fields ∧
    (∃ f ∈ (Logger.Error msg err stack tags).fields,
      f.key = "stacktrace" ∧ f.value = stack ∧ f.value ≠ "") ∧
    (∀ t ∈ tags, t ∈ (Logger.Error msg err stack tags).fields) ∧
    (Logger.Error msg err stack tags).level = Level.error ∧
    (Logger.Error msg err stack tags).msg = msg := by
  refine ⟨?_, ⟨⟨"stacktrace", stack⟩, ?_, rfl, rfl, hstack⟩, ?_, rfl, rfl⟩ <;>
    simp [Logger.Error, zapErrorWithStack]
  intro t ht
  exact Or.inl ht

/-- C3 witness: a concrete error call carries the message and a non-empty
stack trace alongside the caller's tag. -/
theorem error_attaches_message_and_stack_witness :
    ("goroutine 1 [running]:" : String) ≠ "" ∧
    (⟨"error", "boom"⟩ : Field) ∈
      (Logger.Error "failed" ⟨"boom"⟩ "goroutine 1 [running]:"
        [⟨"k", "v"⟩]).fields :=
  ⟨by decide,
    (error_attaches_message_and_stack "failed" ⟨"boom"⟩
      "goroutine 1 [running]:" [⟨"k", "v"⟩] (by decide)).1⟩

/-- C10: the field list the plain error variant hands to the writer holds
the key "error" twice — once appended directly and once from
`zapErrorWithStack` — both with the error's message, so the count of
"error"-keyed fields is the caller's count plus two. -/
theorem error_field_key_duplicated (msg : String) (err : GoError)
    (stack : String) (tags : List Field) :
    (Logger.Error msg err stack tags).fields =
      tags ++ [⟨"error", err.message⟩, ⟨"error", err.message⟩,
        ⟨"stacktrace", stack⟩] ∧
    ((Logger.Error msg err stack tags).fields.filter
        (fun f => f.key == "error")).length =
      (tags.filter (fun f => f.key == "error")).length + 2 := by
  refine ⟨rfl, ?_⟩
  simp [Logger.Error, zapErrorWithStack, List.filter_append]

/-- The `Errorf` argument scan finds an error exactly when the argument
list holds one. -/
theorem firstError_isSome_iff (args : List GoValue) :
    (firstError args).isSome ↔ ∃ e, GoValue.errVal e ∈ args := by
  induction args with
  | nil => simp [firstError]
  | cons a rest ih =>
      cases a with
      | errVal e => simp [firstError]
      | otherVal s => simp [firstError, ih]

/-- C4: the formatted error variant scans its arguments for an error; with
at least one error argument the record carries exactly the first such
error's message and the captured stack trace as fields, and with no error
argument it carries no fields at all. -/
theorem errorf_scans_args (sprintf : String → List GoValue → String)
    (format : String) (args : List GoValue) (stack : String) :
    (Logger.Errorf sprintf format args stack).level = Level.error ∧
    (Logger.Errorf sprintf format args stack).msg = sprintf format args ∧
    (Logger.Errorf sprintf format args stack).fields =
      (match firstError args with
       | some e => [⟨"error", e.message⟩, ⟨"stacktrace", stack⟩]
       | none => []) ∧
    ((firstError args).isSome ↔ ∃ e, GoValue.errVal e ∈ args) ∧
    (∀ e rest, firstError (GoValue.errVal e :: rest) = some e) ∧
    (∀ s rest, firstError (GoValue.otherVal s :: rest) = firstError rest) := by
  refine ⟨?_, ?_, ?_, firstError_isSome_iff args, fun _ _ => rfl,
    fun _ _ => rfl⟩ <;>
    cases h : firstError args <;>
    simp [Logger.Errorf, zapErrorWithStack, h]

/-- C5: every formatted variant logs the message rendered by the standard
formatting function applied to the format string and arguments, with the
message fixed before any field is attached. -/
theorem formatted_variants_render (sprintf : String → List GoValue → String)
    (format : String) (args : List GoValue) (stack : String) :
    (Logger.Infof sprintf format args).msg = sprintf format args ∧
    (Logger.Debugf sprintf format args).msg = sprintf format args ∧
    (Logger.Warnf sprintf format args).msg = sprintf format args ∧
    (Logger.Fatalf sprintf format args).msg = sprintf format args ∧
    (Logger.Errorf sprintf format args stack).msg = sprintf format args ∧
    (Logger.Infof sprintf format args).fields = [] ∧
    (Logger.Debugf sprintf format args).fields = [] ∧
    (Logger.Warnf sprintf format args).fields = [] ∧
    (Logger.Fatalf sprintf format args).fields = [] := by
  refine ⟨rfl, rfl, rfl, rfl, ?_, rfl, rfl, rfl, rfl⟩
  cases h : firstError args <;> simp [Logger.Errorf, h]

/-- C9: once `Cleanup` returns successfully, the buffer is empty, every
previously buffered record and every already durable record is durably in
its destination, and a record written then flushed is durable. -/
theorem cleanup_flushes_all (s : PkgState) (st st' : SinkState)
    (h : Cleanup s st = some st') :
    st'.buffered = [] ∧
    (∀ r ∈ st.buffered, r ∈ st'.durable) ∧
    (∀ r ∈ st.durable, r ∈ st'.durable) ∧
    (∀ (r : LogCall) (st0 : SinkState),
      r ∈ (ZapLogger.syncAll (st0.writeRecord r)).durable) := by
  cases hs : s.logInstance with
  | none => simp [Cleanup, hs] at h
  | some l =>
      simp only [Cleanup, hs] at h
      obtain rfl : ZapLogger.syncAll st = st' := Option.some_injective _ h
      refine ⟨rfl, fun r hr => ?_, fun r hr => ?_, fun r st0 => ?_⟩ <;>
        simp [ZapLogger.syncAll, SinkState.writeRecord] <;> tauto

/-- C9 witness: a concrete buffered record is durable after `Cleanup` on an
initialized logger. -/
theorem cleanup_flushes_all_witness :
    (⟨[], [⟨Level.info, "m", []⟩]⟩ : SinkState).buffered = [] ∧
    (⟨Level.info, "m", []⟩ : LogCall) ∈
      (⟨[], [⟨Level.info, "m", []⟩]⟩ : SinkState).durable := by
  have h := cleanup_flushes_all (Init ⟨"a.log", "b.log", "dev"⟩ startState)
    ⟨[⟨Level.info, "m", []⟩], []⟩ ⟨[], [⟨Level.info, "m", []⟩]⟩ rfl
  exact ⟨h.1, h.2.1 ⟨Level.info, "m", []⟩ (by simp)⟩

end GoLog
